import Mathlib

/-!
Shallow embedding of the lucky-number demo pair (frontend `lucky-web-app/server.js`
and backend `lucky-number-app` express server): the startup gate, the readiness
endpoint, the load simulator, the fault injector and the request forwarder.
-/

/-- JSON values as exchanged between the two services (objects with primitive
fields are the only shapes either service produces). -/
inductive Json where
  | null : Json
  | bool (b : Bool) : Json
  | num (q : ℚ) : Json
  | str (s : String) : Json
  | obj (fields : List (String × Json)) : Json

/-- Field access `data.key` on a parsed JSON value: `none` models JavaScript
`undefined` (missing field, or access on a non-object). -/
def Json.field (j : Json) (key : String) : Option Json :=
  match j with
  | .obj fields => fields.lookup key
  | _ => none

/-- An HTTP response: numeric status plus body (structured JSON for the API
endpoints, a plain string for HTML/text bodies). -/
structure HttpResponse where
  status : Nat
  body : Json

/-- `res.ok` in fetch: status in the 2xx range. -/
def HttpResponse.ok (r : HttpResponse) : Bool :=
  200 ≤ r.status && r.status < 300

/-- Result of `res.json()`: either a parse failure (with the thrown message)
or a parsed value. -/
inductive JsonResult where
  | parseFailure (msg : String) : JsonResult
  | parsed (j : Json) : JsonResult

/-- Outcome of the single `fetch(PING_URL, { timeout: 2000 })` probe, as the
frontend observes it: the bounded timeout fired, the connection was refused or
the host unreachable, or a response arrived (whose body may or may not parse). -/
inductive ProbeOutcome where
  | timeout (msg : String) : ProbeOutcome
  | connectionFailure (msg : String) : ProbeOutcome
  | response (httpOk : Bool) (body : JsonResult) : ProbeOutcome

/-- The probe timeout passed to fetch in `checkLuckyNumberApp` (milliseconds). -/
def PROBE_TIMEOUT_MS : Nat := 2000

/-- The test `data.status !== 'ok'`, negated: true exactly when the parsed
body's `status` field is the string "ok". -/
def Json.statusOk (j : Json) : Bool :=
  match j.field "status" with
  | some (.str "ok") => true
  | _ => false

/-- The try/catch body of `checkLuckyNumberApp`: network errors and the timeout
reject the fetch; a non-ok status throws "Ping failed"; a body that fails to
parse rethrows the parser's message; a parsed body whose `status` field is not
the string "ok" throws "Ping returned unexpected status". -/
def checkLuckyNumberAppE (o : ProbeOutcome) : Except String Unit :=
  match o with
  | .timeout msg => .error msg
  | .connectionFailure msg => .error msg
  | .response httpOk body =>
    if !httpOk then .error "Ping failed"
    else
      match body with
      | .parseFailure msg => .error msg
      | .parsed j =>
        if j.statusOk then .ok ()
        else .error "Ping returned unexpected status"

/-- `checkLuckyNumberApp` resolves to `true` exactly when no step threw; on a
throw it logs `console.error('Could not reach lucky-number-app /ping endpoint:',
err.message)` and resolves to `false`. Returns the boolean and the log lines. -/
def checkLuckyNumberApp (o : ProbeOutcome) : Bool × List String :=
  match checkLuckyNumberAppE o with
  | .ok () => (true, [])
  | .error msg =>
    (false, ["Could not reach lucky-number-app /ping endpoint: " ++ msg])

/-- The frontend's process-wide gate decision, set once at startup. -/
inductive GateDecision where
  | Proceed : GateDecision
  | Abort : GateDecision
deriving DecidableEq, Repr

/-- The gate decides `Proceed` exactly when `checkLuckyNumberApp` resolved true. -/
def gateDecision (o : ProbeOutcome) : GateDecision :=
  if (checkLuckyNumberApp o).1 then .Proceed else .Abort

/-- Default frontend listen port (`process.env.PORT || 4000`). -/
def FRONTEND_PORT : Nat := 4000

/-- How the frontend process ends its startup phase: either it exited with a
code, or it bound its listener on a port and serves traffic. -/
inductive StartupResult where
  | exited (code : Nat) : StartupResult
  | listening (port : Nat) : StartupResult
deriving DecidableEq, Repr

/-- The `checkLuckyNumberApp().then((ok) => ...)` startup gate: on `false` it
logs `Startup aborted: lucky-number-app is not reachable.` and calls
`process.exit(1)`; only on `true` does it reach `app.listen(PORT, ...)`.
Returns the startup result and all log lines emitted on the way. -/
def frontendStartup (o : ProbeOutcome) : StartupResult × List String :=
  if (checkLuckyNumberApp o).1 then
    (.listening FRONTEND_PORT, (checkLuckyNumberApp o).2)
  else
    (.exited 1, (checkLuckyNumberApp o).2
      ++ ["Startup aborted: lucky-number-app is not reachable."])

/-- Default upstream base URL (`process.env.LUCKY_API_URL || ...`). -/
def LUCKY_API_URL : String := "http://lucky-number-app/lucky"

/-- `LUCKY_API_URL.replace(/\/lucky$/, '/ping')`: if the URL ends with the
literal `/lucky`, that suffix (6 characters) is replaced by `/ping`; any other
URL is returned unchanged. -/
def pingUrlOf (url : String) : String :=
  if "/lucky".data <:+ url.data then
    ⟨url.data.take (url.data.length - 6) ++ "/ping".data⟩
  else url

/-- The frontend's probe URL constant `PING_URL`, derived from the configured
upstream base. -/
def PING_URL : String := pingUrlOf LUCKY_API_URL

/-- Backend process lifecycle state: `Starting` until the startup delay
elapses, `Ready` once the listener is bound, `Crashed` is terminal (process
death). -/
inductive ServiceState where
  | Starting : ServiceState
  | Ready : ServiceState
  | Crashed : ServiceState
deriving DecidableEq, Repr

/-- The backend's startup delay (`setTimeout(resolve, 5000)` in `startupDelay`),
in milliseconds. -/
def STARTUP_DELAY_MS : Nat := 5000

/-- The fixed per-request processing delay of the load simulator
(`busyWait(5000)` in the `/lucky` handler), in milliseconds. -/
def LUCKY_DELAY_MS : Nat := 5000

/-- `busyWait(ms)`: spins the single worker until `ms` milliseconds have
elapsed; control returns at `start + ms` and the worker does nothing else in
between. -/
def busyWaitEnd (start ms : Nat) : Nat := start + ms

/-- `Math.floor(10 + Math.random() * 90)`: the lucky number generated from one
sample `q` of the random source (`Math.random()` ranges over `[0,1)`). -/
def luckyNumber (q : ℚ) : ℤ := ⌊(10 : ℚ) + q * 90⌋

/-- Body of a `/lucky` response: `{ luckyNumber }`. -/
def luckyBody (q : ℚ) : Json := .obj [("luckyNumber", .num (luckyNumber q))]

/-- Body of a `/ping` response: `{ status: 'ok' }`. -/
def pingBody : Json := .obj [("status", .str "ok")]

/-- Modelled from the spec: the Fault Injector's acknowledgement body
`{"message": "Server will crash now!"}`; the `/crash` route is documented in
the repository README and §4.4/§6 of the spec but its registration is absent
from the sources provided. -/
def crashBody : Json := .obj [("message", .str "Server will crash now!")]

/-- Modelled from the spec: the backend's exit status when faulted — §6 says
the backend exits non-zero (implicitly, via the Fault Injector). -/
def crashExitCode : Nat := 1

/-- The backend's HTTP routes (`other` stands for any unregistered path). -/
inductive Route where
  | lucky : Route
  | ping : Route
  | crash : Route
  | other : Route
deriving DecidableEq, Repr

/-- One request against the backend, given its current lifecycle state and one
random sample `q`. `none` models a connection that is not answered: while
`Starting` the listener is not yet bound, and after `Crashed` the process is
gone. The `/crash` branch is modelled from the spec (see `crashBody`): it
acknowledges with 200 and then the process terminates, so the next state is
`Crashed`. Express answers unregistered paths with 404. -/
def backendHandle (s : ServiceState) (r : Route) (q : ℚ) :
    Option (HttpResponse × ServiceState) :=
  match s, r with
  | .Starting, _ => none
  | .Crashed, _ => none
  | .Ready, .lucky => some (⟨200, luckyBody q⟩, .Ready)
  | .Ready, .ping => some (⟨200, pingBody⟩, .Ready)
  | .Ready, .crash => some (⟨200, crashBody⟩, .Crashed)
  | .Ready, .other => some (⟨404, .null⟩, .Ready)

/-- A whole sequence of requests against one backend process lifetime:
returns the per-request answers (in order) and the final lifecycle state. -/
def backendRun (s : ServiceState) (reqs : List (Route × ℚ)) :
    List (Option HttpResponse) × ServiceState :=
  match reqs with
  | [] => ([], s)
  | (r, q) :: rest =>
    match backendHandle s r q with
    | none =>
      let (answers, final) := backendRun s rest
      (none :: answers, final)
    | some (resp, s1) =>
      let (answers, final) := backendRun s1 rest
      (some resp :: answers, final)

/-- Lifecycle state of a (non-faulted) backend process `t` milliseconds after
launch: `startupDelay().then(() => app.listen(...))` flips it to `Ready` once
the delay has elapsed. -/
def serviceStateAt (t : Nat) : ServiceState :=
  if t < STARTUP_DELAY_MS then .Starting else .Ready

/-- The answer a request receives `t` milliseconds after backend launch. -/
def respondsAt (t : Nat) (r : Route) (q : ℚ) : Option (HttpResponse × ServiceState) :=
  backendHandle (serviceStateAt t) r q

/-- The `/lucky` handler with its clock made explicit: starting at `t0` it
first runs `busyWait(LUCKY_DELAY_MS)`, then generates the number, then sends
the response. Returns (generation time, response time, response). -/
def luckyHandlerTimed (t0 : Nat) (q : ℚ) : Nat × Nat × HttpResponse :=
  let t1 := busyWaitEnd t0 LUCKY_DELAY_MS
  (t1, t1, ⟨200, luckyBody q⟩)

/-- How long the single worker is occupied serving one request: `/lucky` holds
it for the whole busy wait; every other route answers without blocking. -/
def serviceTime (r : Route) : Nat :=
  match r with
  | .lucky => LUCKY_DELAY_MS
  | _ => 0

/-- Completion times of a queue of concurrent requests on the single-worker
backend: the event loop runs the handlers one after another, so each request
starts only when every earlier handler has released the worker. -/
def completionTimes (t0 : Nat) (reqs : List Route) : List Nat :=
  match reqs with
  | [] => []
  | r :: rest =>
    let t1 := busyWaitEnd t0 (serviceTime r)
    t1 :: completionTimes t1 rest

/-- What fetching the upstream `/lucky` endpoint produced, as the frontend's
`GET /` handler observes it: the fetch rejected (network error), or a response
arrived whose body may or may not parse as JSON. -/
inductive UpstreamResult where
  | netError (msg : String) : UpstreamResult
  | response (body : JsonResult) : UpstreamResult

/-- How React renders a JSON value as the `{number}` child of `LuckyPage.jsx`:
numbers and strings are interpolated as text, `null`, booleans and `undefined`
(a missing field) render as nothing, and a plain object is not a valid React
child, so `renderToString` raises. (Behaviour of the external rendering
collaborator; `LuckyPage.jsx` itself just interpolates the child.) -/
def renderChild (v : Option Json) : Except String String :=
  match v with
  | none => .ok ""
  | some .null => .ok ""
  | some (.bool _) => .ok ""
  | some (.num q) => .ok (toString q)
  | some (.str s) => .ok s
  | some (.obj _) => .error "Objects are not valid as a React child"

/-- `ReactDOMServer.renderToString(<LuckyPage number={...} />)`: the markup of
`LuckyPage.jsx` with the child interpolated. -/
def renderLuckyPage (v : Option Json) : Except String String :=
  match renderChild v with
  | .error msg => .error msg
  | .ok child =>
    .ok ("<div><h1>Your Lucky Number</h1><div class=\"number\">" ++ child
      ++ "</div></div>")

/-- The HTML template the frontend sends around the rendered component
(braces of the inline CSS written as \x7b and \x7d). -/
def pageHtml (html : String) : String :=
  "<!DOCTYPE html><html><head><title>Your Lucky Number</title><style>body \x7b font-family: sans-serif; text-align: center; margin-top: 3em; \x7d .number \x7b font-size: 3em; color: #2b7a78; \x7d</style></head><body>" ++ html ++ "</body></html>"

/-- Whether the frontend process is still alive after a request (its `GET /`
handler never terminates the process). -/
inductive ProcessFate where
  | alive : ProcessFate
  | exitedWith (code : Nat) : ProcessFate
deriving DecidableEq, Repr

/-- The frontend's `GET /` handler: fetch the upstream, parse its body, render
the `luckyNumber` field through the rendering collaborator, send the page with
the default 200 status; any throw lands in the catch, which logs the error and
sends `res.status(500).send('Failed to fetch lucky number')`. The rendering
collaborator is a parameter (`render`) so that a renderer that raises is
covered. Returns (response, fate of the process, log lines). -/
def rootHandler (u : UpstreamResult)
    (render : Option Json → Except String String) :
    HttpResponse × ProcessFate × List String :=
  match u with
  | .netError msg => (⟨500, .str "Failed to fetch lucky number"⟩, .alive, [msg])
  | .response (.parseFailure msg) =>
    (⟨500, .str "Failed to fetch lucky number"⟩, .alive, [msg])
  | .response (.parsed j) =>
    match render (j.field "luckyNumber") with
    | .error msg => (⟨500, .str "Failed to fetch lucky number"⟩, .alive, [msg])
    | .ok html => (⟨200, .str (pageHtml html)⟩, .alive, [])

/-- A failure of the `GET /` handler's try block: the upstream fetch rejected,
the body did not parse, or the rendering collaborator raised. -/
def forwarderFailure (u : UpstreamResult)
    (render : Option Json → Except String String) : Prop :=
  match u with
  | .netError _ => True
  | .response (.parseFailure _) => True
  | .response (.parsed j) => ∃ msg, render (j.field "luckyNumber") = .error msg

/-- The `luckyNumber` field of a parsed upstream body is absent or holds a
primitive that is not a number (JavaScript `undefined`, a string, a boolean or
`null`). -/
def luckyFieldNonNumeric (j : Json) : Bool :=
  match j.field "luckyNumber" with
  | none => true
  | some (.str _) => true
  | some (.bool _) => true
  | some .null => true
  | some (.num _) => false
  | some (.obj _) => false

/-- Following the spec's words for the probe-URL derivation: "the frontend
derives its probe URL by replacing the trailing path segment with `/ping`" —
everything after the last `/` (the trailing segment, slash included) is
dropped and `/ping` is appended. -/
def replaceTrailingSegmentWithPing (url : String) : String :=
  ⟨(((url.data.reverse.dropWhile (fun c => c != '/')).drop 1).reverse)
    ++ "/ping".data⟩

/-- Following the spec's words: a log line names the probed dependency address
when the probe URL occurs inside it. -/
def namesProbedAddress (probeUrl logLine : String) : Prop :=
  probeUrl.data <:+: logLine.data

instance (probeUrl logLine : String) : Decidable (namesProbedAddress probeUrl logLine) :=
  inferInstanceAs (Decidable (probeUrl.data <:+: logLine.data))

/-- C1: every probe outcome of the Dependency Gate's single GET against the
backend readiness endpoint yields the `GateDecision` of the decision table —
the bounded timeout (default 2000 ms), a connection refusal or unreachable
host, an HTTP failure status, and a parsed body whose `status` field differs
from "ok" each yield `Abort`; a success HTTP status whose body's `status`
field equals "ok" yields `Proceed`. -/
theorem C1_gate_decision_table :
    PROBE_TIMEOUT_MS = 2000 ∧
    (∀ msg, gateDecision (.timeout msg) = .Abort) ∧
    (∀ msg, gateDecision (.connectionFailure msg) = .Abort) ∧
    (∀ body, gateDecision (.response false body) = .Abort) ∧
    (∀ msg, gateDecision (.response true (.parseFailure msg)) = .Abort) ∧
    (∀ j : Json, j.statusOk = false →
      gateDecision (.response true (.parsed j)) = .Abort) ∧
    (∀ j : Json, j.statusOk = true →
      gateDecision (.response true (.parsed j)) = .Proceed) := by
  refine ⟨rfl, fun msg => rfl, fun msg => rfl, fun body => rfl, fun msg => rfl,
    fun j h => ?_, fun j h => ?_⟩
  · simp [gateDecision, checkLuckyNumberApp, checkLuckyNumberAppE, h]
  · simp [gateDecision, checkLuckyNumberApp, checkLuckyNumberAppE, h]

/-- Witness for C1: a success response whose body is `{"status":"ok"}` makes
the gate proceed. -/
theorem C1_gate_decision_table_witness :
    Json.statusOk (.obj [("status", .str "ok")]) = true ∧
    gateDecision (.response true (.parsed (.obj [("status", .str "ok")])))
      = .Proceed :=
  ⟨rfl, C1_gate_decision_table.2.2.2.2.2.2 (.obj [("status", .str "ok")]) rfl⟩

/-- C2 counterexample: the claim also asserts that the abort diagnostic names
the probed dependency address, but even under the default configuration the
probe URL `http://lucky-number-app/ping` occurs in no logged line — on an HTTP
failure status the frontend logs only the fixed strings `Could not reach
lucky-number-app /ping endpoint: Ping failed` and `Startup aborted:
lucky-number-app is not reachable.`. -/
theorem C2_diagnostic_lacks_probe_url :
    gateDecision (.response false (.parsed .null)) = .Abort ∧
    ¬ ∃ line ∈ (frontendStartup (.response false (.parsed .null))).2,
        namesProbedAddress PING_URL line := by
  exact ⟨rfl, by decide⟩

/-- C2 (amended): whenever the Dependency Gate decides `Abort`, the frontend
logs a fixed diagnostic naming the dependency (`lucky-number-app`) — though
not the configured probe URL — and terminates with exit code 1 (non-zero)
without ever binding its listener, so the Request Forwarder never becomes
reachable to external traffic. -/
theorem C2_abort_never_listens (o : ProbeOutcome)
    (h : gateDecision o = .Abort) :
    (frontendStartup o).1 = .exited 1 ∧ (1 : Nat) ≠ 0 ∧
    (∀ port, (frontendStartup o).1 ≠ .listening port) ∧
    "Startup aborted: lucky-number-app is not reachable."
      ∈ (frontendStartup o).2 := by
  have hb : (checkLuckyNumberApp o).1 = false := by
    cases hc : (checkLuckyNumberApp o).1 with
    | false => rfl
    | true => simp [gateDecision, hc] at h
  refine ⟨by simp [frontendStartup, hb], by decide,
    fun port => by simp [frontendStartup, hb], by simp [frontendStartup, hb]⟩

/-- Witness for C2 (amended): a timed-out probe aborts the gate and the
frontend exits with code 1. -/
theorem C2_abort_never_listens_witness :
    gateDecision (.timeout "network timeout") = .Abort ∧
    (frontendStartup (.timeout "network timeout")).1 = .exited 1 :=
  ⟨rfl, (C2_abort_never_listens (.timeout "network timeout") rfl).1⟩

theorem backendHandle_crashed (r : Route) (q : ℚ) :
    backendHandle .Crashed r q = none := by
  cases r <;> rfl

theorem backendRun_crashed (reqs : List (Route × ℚ)) :
    backendRun .Crashed reqs = (reqs.map (fun _ => none), .Crashed) := by
  induction reqs with
  | nil => rfl
  | cons hd tl ih =>
    obtain ⟨r, q⟩ := hd
    simp [backendRun, backendHandle_crashed, ih]

/-- C3: a `GET /crash` on a running (`Ready`) backend is acknowledged with
status 200 and body `{"message": "Server will crash now!"}`, after which the
process is terminated with a non-zero exit status and answers no further
request in the same lifetime (the `/crash` route itself is modelled from the
spec, see `crashBody`). -/
theorem C3_crash_acknowledges_then_terminates (q : ℚ) (rest : List (Route × ℚ)) :
    backendHandle .Ready .crash q = some (⟨200, crashBody⟩, .Crashed) ∧
    crashBody = .obj [("message", .str "Server will crash now!")] ∧
    crashExitCode ≠ 0 ∧
    backendRun .Ready ((.crash, q) :: rest)
      = (some ⟨200, crashBody⟩ :: rest.map (fun _ => none), .Crashed) := by
  refine ⟨rfl, rfl, by decide, ?_⟩
  simp [backendRun, backendHandle, backendRun_crashed]

/-- C4: `GET /ping` is answered with `200 {"status":"ok"}` exactly when the
backend's `ServiceState` is `Ready`, which holds exactly once the startup
delay (5000 ms) has elapsed; before that the connection is not accepted at
all, so `/ping` never returns the ok body early. -/
theorem C4_ping_ok_iff_ready (t : Nat) (q : ℚ) :
    (serviceStateAt t = .Ready ↔ STARTUP_DELAY_MS ≤ t) ∧
    (respondsAt t .ping q = some (⟨200, pingBody⟩, .Ready)
      ↔ serviceStateAt t = .Ready) ∧
    (t < STARTUP_DELAY_MS → respondsAt t .ping q = none) ∧
    pingBody = .obj [("status", .str "ok")] := by
  by_cases h : t < STARTUP_DELAY_MS
  · refine ⟨?_, ?_, fun _ => ?_, rfl⟩
    · simp only [serviceStateAt, if_pos h]
      constructor
      · intro hc
        exact absurd hc (by simp)
      · intro hle
        omega
    · simp [respondsAt, serviceStateAt, h, backendHandle]
    · simp [respondsAt, serviceStateAt, h, backendHandle]
  · refine ⟨?_, ?_, fun hlt => absurd hlt h, rfl⟩
    · simp only [serviceStateAt, if_neg h]
      constructor
      · intro _
        omega
      · intro _
        trivial
    · simp [respondsAt, serviceStateAt, h, backendHandle]

/-- Witness for C4: at launch (t = 0) the startup delay has not elapsed and a
`/ping` connection is not answered; at t = 5000 it is answered with the ok
body. -/
theorem C4_ping_ok_iff_ready_witness :
    ((0 : Nat) < STARTUP_DELAY_MS ∧ respondsAt 0 .ping (1/2) = none) ∧
    (serviceStateAt 5000 = .Ready ∧
      respondsAt 5000 .ping (1/2) = some (⟨200, pingBody⟩, .Ready)) :=
  ⟨⟨by decide, (C4_ping_ok_iff_ready 0 (1/2)).2.2.1 (by decide)⟩,
    ⟨rfl, ((C4_ping_ok_iff_ready 5000 (1/2)).2.1).mpr rfl⟩⟩

/-- C5: for every sample `q` of the uniform random source on `[0,1)`, the
generated lucky number lies in the closed range `[10, 99]`; moreover each
value `k` of that range is produced exactly on the subinterval
`[(k-10)/90, (k-9)/90)` of the sample space, and all those subintervals have
the same width `1/90` — so a uniform sample yields a uniform draw from the
range. -/
theorem C5_lucky_number_bounds_uniform (q : ℚ) (h0 : 0 ≤ q) (h1 : q < 1) :
    (10 ≤ luckyNumber q ∧ luckyNumber q ≤ 99) ∧
    (∀ k : ℤ, 10 ≤ k → k ≤ 99 →
      ((luckyNumber q = k
          ↔ ((k : ℚ) - 10) / 90 ≤ q ∧ q < ((k : ℚ) - 9) / 90) ∧
        ((k : ℚ) - 9) / 90 - ((k : ℚ) - 10) / 90 = 1 / 90)) := by
  constructor
  · constructor
    · rw [luckyNumber, Int.le_floor]
      push_cast
      linarith
    · have hlt : luckyNumber q < 100 := by
        rw [luckyNumber, Int.floor_lt]
        push_cast
        linarith
      omega
  · intro k hk1 hk2
    refine ⟨?_, by ring⟩
    rw [luckyNumber, Int.floor_eq_iff]
    constructor
    · rintro ⟨ha, hb⟩
      constructor
      · rw [div_le_iff₀ (by norm_num : (0:ℚ) < 90)]
        linarith
      · rw [lt_div_iff₀ (by norm_num : (0:ℚ) < 90)]
        linarith
    · rintro ⟨ha, hb⟩
      rw [div_le_iff₀ (by norm_num : (0:ℚ) < 90)] at ha
      rw [lt_div_iff₀ (by norm_num : (0:ℚ) < 90)] at hb
      constructor
      · linarith
      · linarith

/-- Witness for C5: the sample 1/2 is a valid random draw and its lucky
number (55) lies within the bounds. -/
theorem C5_lucky_number_bounds_uniform_witness :
    luckyNumber (1/2) = 55 ∧ 10 ≤ luckyNumber (1/2) ∧ luckyNumber (1/2) ≤ 99 :=
  ⟨by norm_num [luckyNumber],
    (C5_lucky_number_bounds_uniform (1/2) (by norm_num) (by norm_num)).1⟩

/-- C6 counterexample: the probe URL is not always the upstream URL with its
trailing path segment replaced by `/ping` — the code only rewrites a trailing
`/lucky`. For `LUCKY_API_URL = "http://lucky-number-app/health"` the code
leaves the URL unchanged, while replacing the trailing segment would give
`http://lucky-number-app/ping`. -/
theorem C6_probe_url_not_always_segment_replacement :
    pingUrlOf "http://lucky-number-app/health" = "http://lucky-number-app/health" ∧
    replaceTrailingSegmentWithPing "http://lucky-number-app/health"
      = "http://lucky-number-app/ping" ∧
    pingUrlOf "http://lucky-number-app/health"
      ≠ replaceTrailingSegmentWithPing "http://lucky-number-app/health" := by
  refine ⟨by decide, by decide, by decide⟩

/-- C6 (amended): for every value of `LUCKY_API_URL` that ends in `/lucky`,
the probe URL equals that URL with its trailing path segment replaced by
`/ping`; for every other value the probe URL is the URL unchanged. -/
theorem C6_probe_url_derivation (url : String) :
    ("/lucky".data <:+ url.data →
      pingUrlOf url = replaceTrailingSegmentWithPing url) ∧
    (¬ "/lucky".data <:+ url.data → pingUrlOf url = url) := by
  constructor
  · intro h
    obtain ⟨pre, hpre⟩ := h
    rw [pingUrlOf, if_pos ⟨pre, hpre⟩, replaceTrailingSegmentWithPing]
    congr 1
    rw [← hpre]
    have hlen : (pre ++ "/lucky".data).length - 6 = pre.length := by
      simp
    rw [hlen, List.take_left]
    have hrev : (pre ++ "/lucky".data).reverse
        = 'y' :: 'k' :: 'c' :: 'u' :: 'l' :: '/' :: pre.reverse := by
      rw [List.reverse_append]
      rfl
    rw [hrev, List.dropWhile_cons_of_pos (by decide),
      List.dropWhile_cons_of_pos (by decide),
      List.dropWhile_cons_of_pos (by decide),
      List.dropWhile_cons_of_pos (by decide),
      List.dropWhile_cons_of_pos (by decide),
      List.dropWhile_cons_of_neg (by decide)]
    simp
  · intro h
    rw [pingUrlOf, if_neg h]

/-- Witness for C6 (amended): the default upstream URL ends in `/lucky` and
its derived probe URL coincides with the spec's segment replacement. -/
theorem C6_probe_url_derivation_witness :
    ("/lucky".data <:+ LUCKY_API_URL.data) ∧
    pingUrlOf LUCKY_API_URL = replaceTrailingSegmentWithPing LUCKY_API_URL :=
  ⟨by decide, (C6_probe_url_derivation LUCKY_API_URL).1 (by decide)⟩

/-- C7: on a Ready backend the `/lucky` handler first holds the worker in
`busyWait` for the full fixed delay (5000 ms), and only then generates the
number and produces the response: generation happens no earlier than
`t0 + LUCKY_DELAY_MS`, the response no earlier than generation, so the
response is never observed before the delay has elapsed. -/
theorem C7_lucky_delay_before_response (t0 : Nat) (q : ℚ) :
    LUCKY_DELAY_MS = 5000 ∧
    (luckyHandlerTimed t0 q).1 = busyWaitEnd t0 LUCKY_DELAY_MS ∧
    t0 + LUCKY_DELAY_MS ≤ (luckyHandlerTimed t0 q).1 ∧
    (luckyHandlerTimed t0 q).1 ≤ (luckyHandlerTimed t0 q).2.1 ∧
    t0 + LUCKY_DELAY_MS ≤ (luckyHandlerTimed t0 q).2.1 ∧
    (luckyHandlerTimed t0 q).2.2 = ⟨200, luckyBody q⟩ :=
  ⟨rfl, rfl, Nat.le_refl _, Nat.le_refl _, Nat.le_refl _, rfl⟩

/-- C8: any failure of the Request Forwarder's call to the backend — a network
error, a body that does not parse, or a throw from the rendering collaborator
— makes `GET /` answer the generic 500 error with a logged diagnostic, and the
frontend process stays alive. -/
theorem C8_forwarder_failure_500 (u : UpstreamResult)
    (render : Option Json → Except String String)
    (h : forwarderFailure u render) :
    (rootHandler u render).1 = ⟨500, .str "Failed to fetch lucky number"⟩ ∧
    (rootHandler u render).2.2 ≠ [] ∧
    (rootHandler u render).2.1 = .alive := by
  cases u with
  | netError msg => exact ⟨rfl, by simp [rootHandler], rfl⟩
  | response body =>
    cases body with
    | parseFailure msg => exact ⟨rfl, by simp [rootHandler], rfl⟩
    | parsed j =>
      obtain ⟨msg, hmsg⟩ := h
      refine ⟨?_, ?_, ?_⟩ <;> simp [rootHandler, hmsg]

/-- Witness for C8: a refused upstream connection produces the 500 response
and leaves the process alive. -/
theorem C8_forwarder_failure_500_witness :
    forwarderFailure (.netError "ECONNREFUSED") renderLuckyPage ∧
    (rootHandler (.netError "ECONNREFUSED") renderLuckyPage).1
      = ⟨500, .str "Failed to fetch lucky number"⟩ ∧
    (rootHandler (.netError "ECONNREFUSED") renderLuckyPage).2.1 = .alive := by
  have h : forwarderFailure (.netError "ECONNREFUSED") renderLuckyPage := trivial
  exact ⟨h, (C8_forwarder_failure_500 (.netError "ECONNREFUSED") renderLuckyPage h).1,
    (C8_forwarder_failure_500 (.netError "ECONNREFUSED") renderLuckyPage h).2.2⟩

/-- C9 counterexample: the claim's "or the field is not a number" also covers
an object-valued `luckyNumber` field, and there the frontend does not respond
with success — the rendering collaborator throws on an object child, the
handler's catch turns that into the generic 500, not a 200. -/
theorem C9_object_field_not_success :
    Json.field (.obj [("luckyNumber", .obj [])]) "luckyNumber"
      = some (.obj []) ∧
    (rootHandler (.response (.parsed (.obj [("luckyNumber", .obj [])])))
        renderLuckyPage).1 = ⟨500, .str "Failed to fetch lucky number"⟩ ∧
    (rootHandler (.response (.parsed (.obj [("luckyNumber", .obj [])])))
        renderLuckyPage).1.status ≠ 200 := by
  refine ⟨rfl, rfl, by decide⟩

/-- C9 (amended): the Request Forwarder performs no validation of the upstream
payload's shape. When the parsed body lacks a `luckyNumber` field or holds a
non-numeric primitive there, rendering succeeds on the undefined/arbitrary
value and the frontend still answers with success (200) — such a response is
not treated as a failure. When the field holds an object, the external
renderer throws on the object child, and the handler's error path answers 500
(still without the forwarder itself inspecting the payload, and without
crashing the process). -/
theorem C9_no_payload_validation (j : Json) :
    (luckyFieldNonNumeric j = true →
      ∃ html, renderLuckyPage (j.field "luckyNumber") = .ok html ∧
        (rootHandler (.response (.parsed j)) renderLuckyPage).1
          = ⟨200, .str (pageHtml html)⟩ ∧
        (rootHandler (.response (.parsed j)) renderLuckyPage).2.1 = .alive ∧
        ¬ forwarderFailure (.response (.parsed j)) renderLuckyPage) ∧
    (∀ fields, j.field "luckyNumber" = some (.obj fields) →
      (rootHandler (.response (.parsed j)) renderLuckyPage).1
        = ⟨500, .str "Failed to fetch lucky number"⟩ ∧
      (rootHandler (.response (.parsed j)) renderLuckyPage).2.1 = .alive) := by
  constructor
  · intro hshape
    have hr : ∃ html, renderLuckyPage (j.field "luckyNumber") = .ok html := by
      cases hv : j.field "luckyNumber" with
      | none => exact ⟨_, rfl⟩
      | some v =>
        cases v with
        | null => exact ⟨_, rfl⟩
        | bool b => exact ⟨_, rfl⟩
        | str s => exact ⟨_, rfl⟩
        | num n => simp [luckyFieldNonNumeric, hv] at hshape
        | obj fields => simp [luckyFieldNonNumeric, hv] at hshape
    obtain ⟨html, hhtml⟩ := hr
    refine ⟨html, hhtml, by simp [rootHandler, hhtml],
      by simp [rootHandler, hhtml], ?_⟩
    rintro ⟨msg, hmsg⟩
    rw [hhtml] at hmsg
    cases hmsg
  · intro fields hv
    have hx : renderLuckyPage (j.field "luckyNumber")
        = .error "Objects are not valid as a React child" := by
      rw [hv]
      rfl
    exact ⟨by simp [rootHandler, hx], by simp [rootHandler, hx]⟩

/-- Witness for C9 (amended): an upstream body `{"message": "no luck"}` with
no `luckyNumber` field still gets a 200, and a body whose `luckyNumber` field
is an object gets the 500 error path with the process alive. -/
theorem C9_no_payload_validation_witness :
    (luckyFieldNonNumeric (.obj [("message", .str "no luck")]) = true ∧
      (∃ html,
        renderLuckyPage
            (Json.field (.obj [("message", .str "no luck")]) "luckyNumber")
          = .ok html ∧
        (rootHandler (.response (.parsed (.obj [("message", .str "no luck")])))
            renderLuckyPage).1 = ⟨200, .str (pageHtml html)⟩ ∧
        (rootHandler (.response (.parsed (.obj [("message", .str "no luck")])))
            renderLuckyPage).2.1 = .alive ∧
        ¬ forwarderFailure (.response (.parsed (.obj [("message", .str "no luck")])))
            renderLuckyPage)) ∧
    (Json.field (.obj [("luckyNumber", .obj [("a", .num 1)])]) "luckyNumber"
        = some (.obj [("a", .num 1)]) ∧
      (rootHandler (.response (.parsed (.obj [("luckyNumber", .obj [("a", .num 1)])])))
          renderLuckyPage).1 = ⟨500, .str "Failed to fetch lucky number"⟩ ∧
      (rootHandler (.response (.parsed (.obj [("luckyNumber", .obj [("a", .num 1)])])))
          renderLuckyPage).2.1 = .alive) :=
  ⟨⟨rfl, (C9_no_payload_validation (.obj [("message", .str "no luck")])).1 rfl⟩,
    ⟨rfl, (C9_no_payload_validation
      (.obj [("luckyNumber", .obj [("a", .num 1)])])).2 [("a", .num 1)] rfl⟩⟩

theorem completionTimes_replicate_lucky (n : Nat) :
    ∀ t0, completionTimes t0 (List.replicate n .lucky)
      = (List.range n).map (fun i => t0 + (i + 1) * LUCKY_DELAY_MS) := by
  induction n with
  | zero => intro t0; rfl
  | succ m ih =>
    intro t0
    rw [List.replicate_succ, completionTimes, ih, List.range_succ_eq_map]
    simp only [List.map_cons, List.map_map, busyWaitEnd, serviceTime]
    refine List.cons_eq_cons.mpr ⟨by ring, ?_⟩
    apply List.map_congr_left
    intro i _
    simp only [Function.comp, Nat.succ_eq_add_one]
    ring

theorem completionTimes_queue_behind (n : Nat) (r : Route) :
    ∀ t0, completionTimes t0 (List.replicate n .lucky ++ [r])
      = completionTimes t0 (List.replicate n .lucky)
        ++ [t0 + n * LUCKY_DELAY_MS + serviceTime r] := by
  induction n with
  | zero =>
    intro t0
    simp [completionTimes, busyWaitEnd]
  | succ m ih =>
    intro t0
    rw [List.replicate_succ, List.cons_append, completionTimes, completionTimes, ih]
    simp only [busyWaitEnd, serviceTime, List.cons_append]
    have harith : t0 + LUCKY_DELAY_MS + m * LUCKY_DELAY_MS
        = t0 + (m + 1) * LUCKY_DELAY_MS := by ring
    rw [harith]

/-- C10: on the single-worker busy-wait backend, N concurrent `GET /lucky`
requests complete serially — the i-th at `t0 + (i+1) * LUCKY_DELAY_MS`, each
separated from the previous by exactly the fixed processing delay — and any
request to another endpoint (e.g. `/ping`) queued behind them is not answered
before every busy wait has finished, at `t0 + N * LUCKY_DELAY_MS`: the whole
process is stalled for the duration of each busy wait. -/
theorem C10_head_of_line_blocking (n t0 : Nat) (r : Route) (h : r ≠ .lucky) :
    completionTimes t0 (List.replicate n .lucky)
      = (List.range n).map (fun i => t0 + (i + 1) * LUCKY_DELAY_MS) ∧
    (∀ i, (t0 + (i + 1 + 1) * LUCKY_DELAY_MS) - (t0 + (i + 1) * LUCKY_DELAY_MS)
        = LUCKY_DELAY_MS) ∧
    completionTimes t0 (List.replicate n .lucky ++ [r])
      = (List.range n).map (fun i => t0 + (i + 1) * LUCKY_DELAY_MS)
        ++ [t0 + n * LUCKY_DELAY_MS] := by
  have hst : serviceTime r = 0 := by
    cases r with
    | lucky => exact absurd rfl h
    | ping => rfl
    | crash => rfl
    | other => rfl
  refine ⟨completionTimes_replicate_lucky n t0, fun i => by ring_nf; omega, ?_⟩
  rw [completionTimes_queue_behind n r t0, completionTimes_replicate_lucky n t0, hst]
  simp

/-- Witness for C10: ten concurrent `/lucky` requests with a `/ping` queued
behind them; the ping is answered only after all ten busy waits, at 50000 ms. -/
theorem C10_head_of_line_blocking_witness :
    Route.ping ≠ Route.lucky ∧
    completionTimes 0 (List.replicate 10 .lucky ++ [.ping])
      = (List.range 10).map (fun i => 0 + (i + 1) * LUCKY_DELAY_MS)
        ++ [0 + 10 * LUCKY_DELAY_MS] :=
  ⟨by decide, (C10_head_of_line_blocking 10 0 .ping (by decide)).2.2⟩
